import Mathlib

/-!
# The oort C++ guest API: shared-state register interface

A shallow embedding of `shared/cpp-api/oort.h` and `shared/cpp-api/oort.cpp`:
the `SystemState` register index, the three shared memory regions
(`SYSTEM_STATE`, `ENVIRONMENT`, `PANIC_BUFFER`), the typed accessors
`read_u64`, `read_f64`, `write_u64`, `write_f64`, the abort handler
`std::__libcpp_verbose_abort` and the exported entry point `sys_tick`.

Conventions of the embedding:
* a `uint64_t` is a `Nat`, reduced modulo `2 ^ 64` where a value enters a
  `uint64_t` object; a `uint8_t` is a `Nat` below `256`;
* a `double` is represented by the 64-bit pattern of its object
  representation; `std::memcpy` moves the eight bytes of that representation;
* an array access outside the bounds of the array has no defined result and is
  `none`.
-/

namespace Oort

/-! ## The register index `enum SystemState` -/

/-- The enumerators of `enum SystemState`, in declaration order. -/
inductive SystemState where
  | Class | Seed | PositionX | PositionY | VelocityX | VelocityY | Heading | AngularVelocity
  | AccelerateX | AccelerateY | Torque
  | Aim0 | Aim1 | Aim2 | Aim3
  | Fire0 | Fire1 | Fire2 | Fire3
  | Explode
  | RadarHeading | RadarWidth | RadarContactFound | RadarContactClass | RadarContactPositionX | RadarContactPositionY | RadarContactVelocityX | RadarContactVelocityY
  | DebugTextPointer | DebugTextLength
  | MaxForwardAcceleration | MaxLateralAcceleration | MaxAngularAcceleration
  | DebugLinesPointer | DebugLinesLength
  | RadarMinDistance | RadarMaxDistance
  | CurrentTick | MaxBackwardAcceleration
  | ActivateAbility
  | Radio0Channel | Radio0Send | Radio0Receive | Radio0Data0 | Radio0Data1 | Radio0Data2 | Radio0Data3
  | Radio1Channel | Radio1Send | Radio1Receive | Radio1Data0 | Radio1Data1 | Radio1Data2 | Radio1Data3
  | Radio2Channel | Radio2Send | Radio2Receive | Radio2Data0 | Radio2Data1 | Radio2Data2 | Radio2Data3
  | Radio3Channel | Radio3Send | Radio3Receive | Radio3Data0 | Radio3Data1 | Radio3Data2 | Radio3Data3
  | Radio4Channel | Radio4Send | Radio4Receive | Radio4Data0 | Radio4Data1 | Radio4Data2 | Radio4Data3
  | Radio5Channel | Radio5Send | Radio5Receive | Radio5Data0 | Radio5Data1 | Radio5Data2 | Radio5Data3
  | Radio6Channel | Radio6Send | Radio6Receive | Radio6Data0 | Radio6Data1 | Radio6Data2 | Radio6Data3
  | Radio7Channel | Radio7Send | Radio7Receive | Radio7Data0 | Radio7Data1 | Radio7Data2 | Radio7Data3
  | SelectedRadio
  | DrawnTextPointer | DrawnTextLength
  | RadarEcmMode
  | Health | Fuel
  | RadarContactRssi | RadarContactSnr
  | ReloadTicks0 | ReloadTicks1 | ReloadTicks2 | ReloadTicks3
  | Id
  | Size | MaxSize
  deriving DecidableEq, Repr

/-- The enumerator list of `enum SystemState` as written in the header: each
enumerator with its explicit initialiser, if it has one. -/
def SystemState.enumerators : List (SystemState × Option Nat) := [
  (Class, none), (Seed, none), (PositionX, none), (PositionY, none), (VelocityX, none), (VelocityY, none), (Heading, none), (AngularVelocity, none),
  (AccelerateX, none), (AccelerateY, none), (Torque, none),
  (Aim0, none), (Aim1, none), (Aim2, none), (Aim3, none),
  (Fire0, none), (Fire1, none), (Fire2, none), (Fire3, none),
  (Explode, none),
  (RadarHeading, none), (RadarWidth, none), (RadarContactFound, none), (RadarContactClass, none), (RadarContactPositionX, none), (RadarContactPositionY, none), (RadarContactVelocityX, none), (RadarContactVelocityY, none),
  (DebugTextPointer, none), (DebugTextLength, none),
  (MaxForwardAcceleration, none), (MaxLateralAcceleration, none), (MaxAngularAcceleration, none),
  (DebugLinesPointer, none), (DebugLinesLength, none),
  (RadarMinDistance, none), (RadarMaxDistance, none),
  (CurrentTick, none), (MaxBackwardAcceleration, none),
  (ActivateAbility, none),
  (Radio0Channel, none), (Radio0Send, none), (Radio0Receive, none), (Radio0Data0, none), (Radio0Data1, none), (Radio0Data2, none), (Radio0Data3, none),
  (Radio1Channel, none), (Radio1Send, none), (Radio1Receive, none), (Radio1Data0, none), (Radio1Data1, none), (Radio1Data2, none), (Radio1Data3, none),
  (Radio2Channel, none), (Radio2Send, none), (Radio2Receive, none), (Radio2Data0, none), (Radio2Data1, none), (Radio2Data2, none), (Radio2Data3, none),
  (Radio3Channel, none), (Radio3Send, none), (Radio3Receive, none), (Radio3Data0, none), (Radio3Data1, none), (Radio3Data2, none), (Radio3Data3, none),
  (Radio4Channel, none), (Radio4Send, none), (Radio4Receive, none), (Radio4Data0, none), (Radio4Data1, none), (Radio4Data2, none), (Radio4Data3, none),
  (Radio5Channel, none), (Radio5Send, none), (Radio5Receive, none), (Radio5Data0, none), (Radio5Data1, none), (Radio5Data2, none), (Radio5Data3, none),
  (Radio6Channel, none), (Radio6Send, none), (Radio6Receive, none), (Radio6Data0, none), (Radio6Data1, none), (Radio6Data2, none), (Radio6Data3, none),
  (Radio7Channel, none), (Radio7Send, none), (Radio7Receive, none), (Radio7Data0, none), (Radio7Data1, none), (Radio7Data2, none), (Radio7Data3, none),
  (SelectedRadio, none),
  (DrawnTextPointer, none), (DrawnTextLength, none),
  (RadarEcmMode, none),
  (Health, none), (Fuel, none),
  (RadarContactRssi, none), (RadarContactSnr, none),
  (ReloadTicks0, none), (ReloadTicks1, none), (ReloadTicks2, none), (ReloadTicks3, none),
  (Id, none),
  (Size, none), (MaxSize, some 128)
]

/-- The C++ rule for enumerator values: an enumerator with an initialiser takes
that value, one without takes the previous enumerator's value plus one, and the
first takes zero. The argument `next` is the value an enumerator without an
initialiser receives. -/
def assignValues : Nat → List (SystemState × Option Nat) → List (SystemState × Nat)
  | _, [] => []
  | next, (k, none) :: rest => (k, next) :: assignValues (next + 1) rest
  | _, (k, some v) :: rest => (k, v) :: assignValues (v + 1) rest

/-- The enumerators of `enum SystemState` with their integer values. -/
def SystemState.values : List (SystemState × Nat) :=
  assignValues 0 SystemState.enumerators

/-- The integer value of an enumerator, as used when it indexes an array. -/
def SystemState.toNat (key : SystemState) : Nat :=
  (SystemState.values.lookup key).getD 0

/-- The enumerator with a given integer value, if there is one. -/
def SystemState.ofNat? (n : Nat) : Option SystemState :=
  (SystemState.values.find? (fun p => p.2 == n)).map Prod.fst

/-- The named registers: the enumerators declared before the count enumerator
`Size`, that is `Class` .. `Id`. -/
def SystemState.registers : List SystemState :=
  (SystemState.enumerators.map Prod.fst).takeWhile (fun k => k != SystemState.Size)

/-- Whether an enumerator names a register (`Class` .. `Id`), as opposed to
being one of the two constants `Size` and `MaxSize`. -/
def SystemState.isRegister (key : SystemState) : Bool :=
  SystemState.registers.contains key

/-! ## The shared memory regions -/

/-- Extent of `SYSTEM_STATE` in the declaration of `oort.h`. -/
def declared_SYSTEM_STATE_extent : Nat := 128
/-- Extent of `ENVIRONMENT` in the declaration of `oort.h`. -/
def declared_ENVIRONMENT_extent : Nat := 1024
/-- Extent of `PANIC_BUFFER` in the declaration of `oort.h`. -/
def declared_PANIC_BUFFER_extent : Nat := 1024

/-- Extent of `SYSTEM_STATE` in the definition of `oort.cpp`. -/
def defined_SYSTEM_STATE_extent : Nat := 128
/-- Extent of `ENVIRONMENT` in the definition of `oort.cpp`. -/
def defined_ENVIRONMENT_extent : Nat := 1024
/-- Extent of `PANIC_BUFFER` in the definition of `oort.cpp`. -/
def defined_PANIC_BUFFER_extent : Nat := 1024

/-- Size in bytes of a `uint64_t` and of a `double`. -/
def sizeof_u64 : Nat := 8

/-- The three global arrays of `oort.cpp`. -/
structure Memory where
  SYSTEM_STATE : List Nat
  ENVIRONMENT : List Nat
  PANIC_BUFFER : List Nat
  deriving DecidableEq, Repr

/-- The arrays have the extents of their definitions and every element is a
value of its element type (`uint64_t`, `uint8_t`). -/
def Memory.WellFormed (m : Memory) : Prop :=
  (m.SYSTEM_STATE.length = defined_SYSTEM_STATE_extent ∧ ∀ w ∈ m.SYSTEM_STATE, w < 2 ^ 64) ∧
  (m.ENVIRONMENT.length = defined_ENVIRONMENT_extent ∧ ∀ b ∈ m.ENVIRONMENT, b < 256) ∧
  (m.PANIC_BUFFER.length = defined_PANIC_BUFFER_extent ∧ ∀ b ∈ m.PANIC_BUFFER, b < 256)

/-- The arrays as they are at program start: objects of static storage
duration are zero-initialised. -/
def Memory.initial : Memory where
  SYSTEM_STATE := List.replicate defined_SYSTEM_STATE_extent 0
  ENVIRONMENT := List.replicate defined_ENVIRONMENT_extent 0
  PANIC_BUFFER := List.replicate defined_PANIC_BUFFER_extent 0

/-! ## Object representations and `std::memcpy` -/

/-- A `double`, represented by the 64-bit pattern of its object representation
(bit 63 the sign, bits 62..52 the biased exponent, bits 51..0 the fraction). -/
structure Double where
  bits : Nat
  deriving DecidableEq, Repr

/-- The eight bytes of a `uint64_t` object, least significant first. -/
def u64_bytes (v : Nat) : List Nat :=
  (List.range sizeof_u64).map (fun i => v / 256 ^ i % 256)

/-- The `uint64_t` whose object representation is the given bytes. -/
def u64_of_bytes (bytes : List Nat) : Nat :=
  bytes.foldr (fun b acc => b + 256 * acc) 0

/-- The `double` with the given sign bit, biased exponent and fraction field
(IEEE-754 binary64). -/
def Double.of_fields (sign exponent fraction : Nat) : Double :=
  ⟨sign * 2 ^ 63 + exponent * 2 ^ 52 + fraction⟩

/-- The `double` `1.0`: positive, unbiased exponent `0` (biased `1023`), fraction `0`. -/
def Double.one : Double := Double.of_fields 0 1023 0

/-- The bytes of a `double` object. -/
def Double.bytes (d : Double) : List Nat := u64_bytes d.bits

/-- The `double` whose object representation is the given bytes. -/
def Double.of_bytes (bytes : List Nat) : Double := ⟨u64_of_bytes bytes⟩

/-- The bytes `std::memcpy(dst, src, n)` leaves in the first `n` bytes of the
destination: the first `n` bytes of the source. -/
def memcpy (src : List Nat) (n : Nat) : List Nat := src.take n

/-! ## The typed accessors -/

/-- The accessor `read_u64(key)`: the word `SYSTEM_STATE[key]`. -/
def read_u64 (m : Memory) (key : SystemState) : Option Nat :=
  m.SYSTEM_STATE[key.toNat]?

/-- The accessor `read_f64(key)`: the word read by `read_u64`, copied byte by byte into a
`double`. -/
def read_f64 (m : Memory) (key : SystemState) : Option Double :=
  match read_u64 m key with
  | none => none
  | some u64_value =>
    let f64_value := Double.of_bytes (memcpy (u64_bytes u64_value) sizeof_u64)
    some f64_value

/-- The accessor `write_u64(key, value)`: the assignment `SYSTEM_STATE[key] = value`. The
parameter is a `uint64_t`, so the argument is taken modulo `2 ^ 64`. -/
def write_u64 (m : Memory) (key : SystemState) (value : Nat) : Option Memory :=
  if key.toNat < m.SYSTEM_STATE.length then
    some { m with SYSTEM_STATE := m.SYSTEM_STATE.set key.toNat (value % 2 ^ 64) }
  else
    none

/-- The accessor `write_f64(key, value)`: the bytes of the `double` copied into a
`uint64_t`, which `write_u64` stores. -/
def write_f64 (m : Memory) (key : SystemState) (value : Double) : Option Memory :=
  let u64_value := u64_of_bytes (memcpy value.bytes sizeof_u64)
  write_u64 m key u64_value

/-! ## The abort handler and the entry point -/

/-- How a call ends: it returns, or the process is terminated by `std::abort`.
Either way the memory the host can inspect afterwards is recorded. -/
inductive Outcome where
  | returned (m : Memory)
  | aborted (m : Memory)
  deriving DecidableEq, Repr

/-- The memory at the end of a call. -/
def Outcome.memory : Outcome → Memory
  | .returned m => m
  | .aborted m => m

/-- The handler `std::__libcpp_verbose_abort(format, ...)`: the body is the
comment `TODO write to panic buffer` followed by a call of `std::abort()`;
neither the format string nor the variadic arguments are used, and nothing is
stored. -/
def std.__libcpp_verbose_abort (m : Memory) (_format : List Nat) (_args : List Nat) : Outcome :=
  Outcome.aborted m

/-- The entry point `sys_tick`, exported as `tick`: a call of the guest's `tick()`, which is
declared but not defined in this translation unit and is a parameter here. -/
def sys_tick (tick : Memory → Outcome) (m : Memory) : Outcome :=
  tick m

/-- A guest `tick()` with an empty body. -/
def tick_noop (m : Memory) : Outcome := Outcome.returned m

/-! ## The radio block and sequences of writes -/

/-- The registers of the eight radio units: row `N` lists `RadioNChannel`,
`RadioNSend`, `RadioNReceive`, `RadioNData0` .. `RadioNData3`. -/
def SystemState.radios : List (List SystemState) := [
  [Radio0Channel, Radio0Send, Radio0Receive, Radio0Data0, Radio0Data1, Radio0Data2, Radio0Data3],
  [Radio1Channel, Radio1Send, Radio1Receive, Radio1Data0, Radio1Data1, Radio1Data2, Radio1Data3],
  [Radio2Channel, Radio2Send, Radio2Receive, Radio2Data0, Radio2Data1, Radio2Data2, Radio2Data3],
  [Radio3Channel, Radio3Send, Radio3Receive, Radio3Data0, Radio3Data1, Radio3Data2, Radio3Data3],
  [Radio4Channel, Radio4Send, Radio4Receive, Radio4Data0, Radio4Data1, Radio4Data2, Radio4Data3],
  [Radio5Channel, Radio5Send, Radio5Receive, Radio5Data0, Radio5Data1, Radio5Data2, Radio5Data3],
  [Radio6Channel, Radio6Send, Radio6Receive, Radio6Data0, Radio6Data1, Radio6Data2, Radio6Data3],
  [Radio7Channel, Radio7Send, Radio7Receive, Radio7Data0, Radio7Data1, Radio7Data2, Radio7Data3]
]

/-- A sequence of `write_u64(key, value)` calls, executed in order. -/
def write_u64_all (m : Memory) : List (SystemState × Nat) → Option Memory
  | [] => some m
  | (key, value) :: rest =>
    match write_u64 m key value with
    | none => none
    | some m' => write_u64_all m' rest

/-- The zero-initialised memory in which the register `Heading` (word 6) holds
the pattern of a NaN with a payload. -/
def Memory.sample : Memory :=
  { Memory.initial with
    SYSTEM_STATE := Memory.initial.SYSTEM_STATE.set 6 0x7FF0000000000DEF }

/-! ## Auxiliary facts -/

theorem SystemState.toNat_lt_of_ne_MaxSize (key : SystemState)
    (h : key ≠ SystemState.MaxSize) : key.toNat < defined_SYSTEM_STATE_extent := by
  cases key <;> first | decide | exact absurd rfl h

theorem SystemState.ne_MaxSize_of_isRegister (key : SystemState)
    (h : key.isRegister = true) : key ≠ SystemState.MaxSize := by
  intro hk
  subst hk
  exact absurd h (by decide)

theorem SystemState.toNat_lt_of_isRegister (key : SystemState)
    (h : key.isRegister = true) : key.toNat < defined_SYSTEM_STATE_extent :=
  SystemState.toNat_lt_of_ne_MaxSize key (SystemState.ne_MaxSize_of_isRegister key h)

theorem SystemState.ofNat?_toNat (key : SystemState) :
    SystemState.ofNat? key.toNat = some key := by
  cases key <;> decide

theorem SystemState.toNat_injective (a b : SystemState) (h : a.toNat = b.toNat) : a = b := by
  have hab := congrArg SystemState.ofNat? h
  rw [SystemState.ofNat?_toNat, SystemState.ofNat?_toNat] at hab
  exact Option.some.inj hab

theorem Memory.initial_wellFormed : Memory.initial.WellFormed := by
  refine ⟨⟨?_, ?_⟩, ⟨?_, ?_⟩, ⟨?_, ?_⟩⟩
  · simp [Memory.initial]
  · intro w hw
    have hz : w = 0 := (List.mem_replicate.mp hw).2
    omega
  · simp [Memory.initial]
  · intro b hb
    have hz : b = 0 := (List.mem_replicate.mp hb).2
    omega
  · simp [Memory.initial]
  · intro b hb
    have hz : b = 0 := (List.mem_replicate.mp hb).2
    omega

/-- Copying the bytes of a word into another 64-bit object and reading that
object as a word gives the word back, reduced to 64 bits. -/
theorem u64_of_bytes_memcpy_u64_bytes (v : Nat) :
    u64_of_bytes (memcpy (u64_bytes v) sizeof_u64) = v % 2 ^ 64 := by
  simp [u64_of_bytes, memcpy, u64_bytes, sizeof_u64, List.range, List.range.loop]
  omega

theorem write_u64_of_lt (m : Memory) (key : SystemState) (value : Nat)
    (h : key.toNat < m.SYSTEM_STATE.length) :
    write_u64 m key value =
      some { m with SYSTEM_STATE := m.SYSTEM_STATE.set key.toNat (value % 2 ^ 64) } := by
  unfold write_u64
  rw [if_pos h]

theorem read_u64_of_write_u64 (m m' : Memory) (key : SystemState) (value : Nat)
    (h : write_u64 m key value = some m') : read_u64 m' key = some (value % 2 ^ 64) := by
  unfold write_u64 at h
  split at h
  · rename_i hlt
    cases h
    simp [read_u64, hlt]
  · cases h

theorem read_u64_lt_of_wellFormed (m : Memory) (key : SystemState) (w : Nat)
    (hm : m.WellFormed) (h : read_u64 m key = some w) : w < 2 ^ 64 := by
  unfold read_u64 at h
  exact hm.1.2 w (List.getElem?_mem h)

theorem read_u64_of_lt (m : Memory) (key : SystemState)
    (h : key.toNat < m.SYSTEM_STATE.length) :
    ∃ w, read_u64 m key = some w ∧ w ∈ m.SYSTEM_STATE := by
  refine ⟨m.SYSTEM_STATE[key.toNat], ?_, List.getElem_mem h⟩
  simp [read_u64, h]

theorem read_f64_of_read_u64 (m : Memory) (key : SystemState) (w : Nat)
    (h : read_u64 m key = some w) : read_f64 m key = some ⟨w % 2 ^ 64⟩ := by
  simp [read_f64, h, Double.of_bytes, u64_of_bytes_memcpy_u64_bytes]

theorem write_f64_eq_write_u64 (m : Memory) (key : SystemState) (value : Double) :
    write_f64 m key value = write_u64 m key (value.bits % 2 ^ 64) := by
  simp [write_f64, Double.bytes, u64_of_bytes_memcpy_u64_bytes]

theorem write_u64_length (m m' : Memory) (key : SystemState) (value : Nat)
    (h : write_u64 m key value = some m') :
    m'.SYSTEM_STATE.length = m.SYSTEM_STATE.length := by
  unfold write_u64 at h
  split at h
  · cases h
    simp
  · cases h

/-! ## Round trips of the accessors -/

/-- C1: for every table state, named register `r` and 64-bit value `v`,
`write_u64(r, v)` succeeds and `read_u64(r)` in the resulting state returns
exactly `v`. -/
theorem write_u64_read_u64_roundtrip (m : Memory) (r : SystemState) (v : Nat)
    (hm : m.WellFormed) (hr : r.isRegister = true) (hv : v < 2 ^ 64) :
    ∃ m', write_u64 m r v = some m' ∧ read_u64 m' r = some v := by
  have hlt : r.toNat < m.SYSTEM_STATE.length := by
    rw [hm.1.1]
    exact SystemState.toNat_lt_of_isRegister r hr
  refine ⟨_, write_u64_of_lt m r v hlt, ?_⟩
  rw [read_u64_of_write_u64 m _ r v (write_u64_of_lt m r v hlt), Nat.mod_eq_of_lt hv]

theorem write_u64_read_u64_roundtrip_witness :
    Memory.initial.WellFormed ∧ SystemState.Id.isRegister = true ∧
      0xFFFFFFFFFFFFFFFF < 2 ^ 64 ∧
      ∃ m', write_u64 Memory.initial SystemState.Id 0xFFFFFFFFFFFFFFFF = some m' ∧
        read_u64 m' SystemState.Id = some 0xFFFFFFFFFFFFFFFF :=
  ⟨Memory.initial_wellFormed, by decide, by decide,
    write_u64_read_u64_roundtrip Memory.initial SystemState.Id 0xFFFFFFFFFFFFFFFF
      Memory.initial_wellFormed (by decide) (by decide)⟩

/-- C2: for every table state, named register `r` and double `f` given as a
64-bit pattern (any pattern: NaNs with any payload, infinities, both zeros),
`write_f64(r, f)` succeeds and `read_f64(r)` in the resulting state has the
same 64-bit pattern as `f`. -/
theorem write_f64_read_f64_roundtrip (m : Memory) (r : SystemState) (f : Double)
    (hm : m.WellFormed) (hr : r.isRegister = true) (hf : f.bits < 2 ^ 64) :
    ∃ m', write_f64 m r f = some m' ∧ read_f64 m' r = some f := by
  have hlt : r.toNat < m.SYSTEM_STATE.length := by
    rw [hm.1.1]
    exact SystemState.toNat_lt_of_isRegister r hr
  have hw := write_u64_of_lt m r (f.bits % 2 ^ 64) hlt
  refine ⟨_, (write_f64_eq_write_u64 m r f).trans hw, ?_⟩
  rw [read_f64_of_read_u64 _ r _ (read_u64_of_write_u64 m _ r _ hw)]
  have hbits : f.bits % 2 ^ 64 % 2 ^ 64 % 2 ^ 64 = f.bits := by omega
  rw [hbits]

theorem write_f64_read_f64_roundtrip_witness :
    Memory.initial.WellFormed ∧ SystemState.Heading.isRegister = true ∧
      (Double.mk 0xFFF0000000000001).bits < 2 ^ 64 ∧
      ∃ m', write_f64 Memory.initial SystemState.Heading ⟨0xFFF0000000000001⟩ = some m' ∧
        read_f64 m' SystemState.Heading = some ⟨0xFFF0000000000001⟩ :=
  ⟨Memory.initial_wellFormed, by decide, by decide,
    write_f64_read_f64_roundtrip Memory.initial SystemState.Heading ⟨0xFFF0000000000001⟩
      Memory.initial_wellFormed (by decide) (by decide)⟩

/-! ## The register index -/

/-- C3, as stated, fails: `MaxSize` is an enumerator declared in
`enum SystemState`, its value is `128`, which is not below the extent `128` of
`SYSTEM_STATE`, and both accessors called on it leave the bounds of the array. -/
theorem MaxSize_not_a_valid_index :
    (SystemState.MaxSize, some 128) ∈ SystemState.enumerators ∧
      Memory.initial.WellFormed ∧
      ¬ (SystemState.MaxSize.toNat < defined_SYSTEM_STATE_extent) ∧
      read_u64 Memory.initial SystemState.MaxSize = none ∧
      write_u64 Memory.initial SystemState.MaxSize 0 = none := by
  refine ⟨by decide, Memory.initial_wellFormed, by decide, ?_, ?_⟩
  · simp [read_u64, Memory.initial, defined_SYSTEM_STATE_extent,
      show SystemState.MaxSize.toNat = 128 from by decide]
  · simp [write_u64, Memory.initial, defined_SYSTEM_STATE_extent,
      show SystemState.MaxSize.toNat = 128 from by decide]

/-- C3, amended: every enumerator of `enum SystemState` other than `MaxSize`
(the registers `Class` .. `Id` and the count `Size`) has a value strictly below
the extent `128` of `SYSTEM_STATE`, and `read_u64` and `write_u64` called on it
stay inside the array. -/
theorem accessors_in_bounds_of_ne_MaxSize (m : Memory) (key : SystemState) (v : Nat)
    (hm : m.WellFormed) (hkey : key ≠ SystemState.MaxSize) :
    key.toNat < defined_SYSTEM_STATE_extent ∧ defined_SYSTEM_STATE_extent = 128 ∧
      (∃ w, read_u64 m key = some w) ∧ (∃ m', write_u64 m key v = some m') := by
  have hb := SystemState.toNat_lt_of_ne_MaxSize key hkey
  have hlt : key.toNat < m.SYSTEM_STATE.length := by
    rw [hm.1.1]
    exact hb
  obtain ⟨w, hw, _⟩ := read_u64_of_lt m key hlt
  exact ⟨hb, rfl, ⟨w, hw⟩, ⟨_, write_u64_of_lt m key v hlt⟩⟩

theorem accessors_in_bounds_of_ne_MaxSize_witness :
    Memory.initial.WellFormed ∧ SystemState.Size ≠ SystemState.MaxSize ∧
      (SystemState.Size.toNat < defined_SYSTEM_STATE_extent ∧
        defined_SYSTEM_STATE_extent = 128 ∧
        (∃ w, read_u64 Memory.initial SystemState.Size = some w) ∧
        (∃ m', write_u64 Memory.initial SystemState.Size 7 = some m')) :=
  ⟨Memory.initial_wellFormed, by decide,
    accessors_in_bounds_of_ne_MaxSize Memory.initial SystemState.Size 7
      Memory.initial_wellFormed (by decide)⟩

/-- C4: the register names `Class` .. `Id` map to pairwise distinct offsets
(two registers have the same offset only if they are the same register), and
every offset is below `MaxSize = 128`. -/
theorem register_offsets_distinct_and_bounded (a b : SystemState)
    (ha : a.isRegister = true) (hb : b.isRegister = true) :
    (a.toNat = b.toNat ↔ a = b) ∧
      a.toNat < SystemState.MaxSize.toNat ∧ b.toNat < SystemState.MaxSize.toNat ∧
      SystemState.MaxSize.toNat = 128 := by
  refine ⟨⟨SystemState.toNat_injective a b, fun h => by rw [h]⟩, ?_, ?_, by decide⟩
  · exact SystemState.toNat_lt_of_isRegister a ha
  · exact SystemState.toNat_lt_of_isRegister b hb

theorem register_offsets_distinct_and_bounded_witness :
    SystemState.Radio0Send.isRegister = true ∧ SystemState.Radio7Data3.isRegister = true ∧
      ((SystemState.Radio0Send.toNat = SystemState.Radio7Data3.toNat ↔
          SystemState.Radio0Send = SystemState.Radio7Data3) ∧
        SystemState.Radio0Send.toNat < SystemState.MaxSize.toNat ∧
        SystemState.Radio7Data3.toNat < SystemState.MaxSize.toNat ∧
        SystemState.MaxSize.toNat = 128) :=
  ⟨by decide, by decide,
    register_offsets_distinct_and_bounded SystemState.Radio0Send SystemState.Radio7Data3
      (by decide) (by decide)⟩

/-- C5: the registers `Class` .. `Id`, in declaration order, take exactly the
values `0, 1, ..., 108`; in particular `Class = 0`, `Radio0Channel = 40`,
`SelectedRadio = 96`, `Health = 100`, `Id = 108`; the count enumerator `Size`
is `109`, `MaxSize` is `128`, and `Size ≤ MaxSize`. -/
theorem register_offsets_contiguous :
    SystemState.registers.map SystemState.toNat = List.range 109 ∧
      SystemState.enumerators.map Prod.fst =
        SystemState.registers ++ [SystemState.Size, SystemState.MaxSize] ∧
      SystemState.registers.head? = some SystemState.Class ∧
      SystemState.registers.getLast? = some SystemState.Id ∧
      SystemState.Class.toNat = 0 ∧ SystemState.Radio0Channel.toNat = 40 ∧
      SystemState.SelectedRadio.toNat = 96 ∧ SystemState.Health.toNat = 100 ∧
      SystemState.Id.toNat = 108 ∧ SystemState.Size.toNat = 109 ∧
      SystemState.MaxSize.toNat = 128 ∧
      SystemState.Size.toNat ≤ SystemState.MaxSize.toNat := by
  decide

/-! ## The `f64` accessors reinterpret the stored word -/

/-- C6: the `f64` accessors see the same word as the `u64` accessors. For every
table state and named register `r`: the 64-bit pattern of `read_f64(r)` is the
word `read_u64(r)`; after `write_f64(r, f)` the word `read_u64(r)` is the
pattern of `f` (for `1.0` it is `0x3FF0000000000000`, not `1`); and for every
64-bit word `v`, `write_u64(r, v); x = read_f64(r); write_f64(r, x);
read_u64(r)` returns `v`. -/
theorem f64_accessors_reinterpret (m : Memory) (r : SystemState) (f : Double) (v : Nat)
    (hm : m.WellFormed) (hr : r.isRegister = true) (hf : f.bits < 2 ^ 64)
    (hv : v < 2 ^ 64) :
    (∃ w, read_u64 m r = some w ∧ read_f64 m r = some ⟨w⟩) ∧
      (∃ m', write_f64 m r f = some m' ∧ read_u64 m' r = some f.bits) ∧
      (∃ m', write_f64 m r Double.one = some m' ∧
        read_u64 m' r = some 0x3FF0000000000000 ∧ read_u64 m' r ≠ some 1) ∧
      (∃ m₁ x m₂, write_u64 m r v = some m₁ ∧ read_f64 m₁ r = some x ∧
        write_f64 m₁ r x = some m₂ ∧ read_u64 m₂ r = some v) := by
  have hlt : r.toNat < m.SYSTEM_STATE.length := by
    rw [hm.1.1]
    exact SystemState.toNat_lt_of_isRegister r hr
  have pattern : ∀ (n : Memory) (g : Double), r.toNat < n.SYSTEM_STATE.length →
      g.bits < 2 ^ 64 → ∃ n', write_f64 n r g = some n' ∧ read_u64 n' r = some g.bits := by
    intro n g hn hg
    have hw := write_u64_of_lt n r (g.bits % 2 ^ 64) hn
    refine ⟨_, (write_f64_eq_write_u64 n r g).trans hw, ?_⟩
    rw [read_u64_of_write_u64 n _ r _ hw]
    have hbits : g.bits % 2 ^ 64 % 2 ^ 64 = g.bits := by omega
    rw [hbits]
  refine ⟨?_, pattern m f hlt hf, ?_, ?_⟩
  · obtain ⟨w, hw, hmem⟩ := read_u64_of_lt m r hlt
    refine ⟨w, hw, ?_⟩
    rw [read_f64_of_read_u64 m r w hw, Nat.mod_eq_of_lt (hm.1.2 w hmem)]
  · obtain ⟨m', hw, hread⟩ := pattern m Double.one hlt (by decide)
    refine ⟨m', hw, ?_, ?_⟩
    · rw [hread]
      decide
    · rw [hread]
      decide
  · obtain ⟨m₁, hw₁⟩ : ∃ m₁, write_u64 m r v = some m₁ := ⟨_, write_u64_of_lt m r v hlt⟩
    have hr₁ := read_u64_of_write_u64 m m₁ r v hw₁
    rw [Nat.mod_eq_of_lt hv] at hr₁
    have hx := read_f64_of_read_u64 m₁ r v hr₁
    rw [Nat.mod_eq_of_lt hv] at hx
    have hlen := write_u64_length m m₁ r v hw₁
    obtain ⟨m₂, hw₂, hr₂⟩ := pattern m₁ ⟨v⟩ (by rw [hlen]; exact hlt) hv
    exact ⟨m₁, ⟨v⟩, m₂, hw₁, hx, hw₂, hr₂⟩

theorem f64_accessors_reinterpret_witness :
    Memory.initial.WellFormed ∧ SystemState.PositionX.isRegister = true ∧
      (Double.mk 0x8000000000000000).bits < 2 ^ 64 ∧ 0x7FF8000000000DEF < 2 ^ 64 ∧
      ((∃ w, read_u64 Memory.initial SystemState.PositionX = some w ∧
          read_f64 Memory.initial SystemState.PositionX = some ⟨w⟩) ∧
        (∃ m', write_f64 Memory.initial SystemState.PositionX ⟨0x8000000000000000⟩ = some m' ∧
          read_u64 m' SystemState.PositionX = some (Double.mk 0x8000000000000000).bits) ∧
        (∃ m', write_f64 Memory.initial SystemState.PositionX Double.one = some m' ∧
          read_u64 m' SystemState.PositionX = some 0x3FF0000000000000 ∧
          read_u64 m' SystemState.PositionX ≠ some 1) ∧
        (∃ m₁ x m₂, write_u64 Memory.initial SystemState.PositionX 0x7FF8000000000DEF = some m₁ ∧
          read_f64 m₁ SystemState.PositionX = some x ∧
          write_f64 m₁ SystemState.PositionX x = some m₂ ∧
          read_u64 m₂ SystemState.PositionX = some 0x7FF8000000000DEF)) :=
  ⟨Memory.initial_wellFormed, by decide, by decide, by decide,
    f64_accessors_reinterpret Memory.initial SystemState.PositionX ⟨0x8000000000000000⟩
      0x7FF8000000000DEF Memory.initial_wellFormed (by decide) (by decide) (by decide)⟩

/-! ## The abort handler -/

/-- C7, evaluated on the code: called with the message `"panic"` on the
zero-initialised memory, the handler aborts and the panic buffer is what it was
before the call, all zero; it does not begin with the bytes of the message. -/
theorem verbose_abort_does_not_capture_message :
    std.__libcpp_verbose_abort Memory.initial [112, 97, 110, 105, 99] [] =
        Outcome.aborted Memory.initial ∧
      (std.__libcpp_verbose_abort Memory.initial [112, 97, 110, 105, 99] []).memory.PANIC_BUFFER.take 5
        = [0, 0, 0, 0, 0] ∧
      (std.__libcpp_verbose_abort Memory.initial [112, 97, 110, 105, 99] []).memory.PANIC_BUFFER.take 5
        ≠ [112, 97, 110, 105, 99] := by
  refine ⟨rfl, ?_, ?_⟩ <;>
    simp only [std.__libcpp_verbose_abort, Outcome.memory, Memory.initial,
      defined_PANIC_BUFFER_extent, List.take_replicate] <;>
    decide

/-- C8: for every diagnostic message of any length, the abort handler leaves
`SYSTEM_STATE` and `ENVIRONMENT` identical and the panic buffer keeps its
extent, so no byte outside the 1024 bytes of `PANIC_BUFFER` is written; the
call ends in `std::abort`. -/
theorem verbose_abort_respects_capacity (m : Memory) (format args : List Nat) :
    (std.__libcpp_verbose_abort m format args).memory.SYSTEM_STATE = m.SYSTEM_STATE ∧
      (std.__libcpp_verbose_abort m format args).memory.ENVIRONMENT = m.ENVIRONMENT ∧
      (std.__libcpp_verbose_abort m format args).memory.PANIC_BUFFER.length
        = m.PANIC_BUFFER.length ∧
      (∃ m', std.__libcpp_verbose_abort m format args = Outcome.aborted m') :=
  ⟨rfl, rfl, rfl, m, rfl⟩

/-! ## The wire-format sizes -/

/-- C9: `SYSTEM_STATE` has 128 words of 8 bytes (1024 bytes), and 128 is the
enumerator `MaxSize`; `ENVIRONMENT` and `PANIC_BUFFER` have 1024 bytes each;
the extents declared in `oort.h` are those defined in `oort.cpp`; and the
memory at program start has these extents. -/
theorem region_sizes :
    defined_SYSTEM_STATE_extent = 128 ∧
      defined_SYSTEM_STATE_extent = SystemState.MaxSize.toNat ∧
      defined_SYSTEM_STATE_extent * sizeof_u64 = 1024 ∧
      defined_ENVIRONMENT_extent = 1024 ∧ defined_PANIC_BUFFER_extent = 1024 ∧
      declared_SYSTEM_STATE_extent = defined_SYSTEM_STATE_extent ∧
      declared_ENVIRONMENT_extent = defined_ENVIRONMENT_extent ∧
      declared_PANIC_BUFFER_extent = defined_PANIC_BUFFER_extent ∧
      Memory.initial.SYSTEM_STATE.length = 128 ∧
      Memory.initial.ENVIRONMENT.length = 1024 ∧
      Memory.initial.PANIC_BUFFER.length = 1024 := by
  refine ⟨rfl, by decide, rfl, rfl, rfl, rfl, rfl, rfl, ?_, ?_, ?_⟩ <;>
    simp only [Memory.initial, defined_SYSTEM_STATE_extent, defined_ENVIRONMENT_extent,
      defined_PANIC_BUFFER_extent, List.length_replicate]

/-! ## The entry point -/

/-- C10: `sys_tick` adds no effect of its own: for every guest `tick` and every
initial state its outcome is the outcome of `tick` run once on that state. With
a no-op guest `tick` it returns, without fault, leaving the whole memory as it
was; in particular from the all-zero memory, every register and both auxiliary
buffers are unchanged. -/
theorem sys_tick_is_guest_tick (tick : Memory → Outcome) (m : Memory) :
    sys_tick tick m = tick m ∧
      sys_tick tick_noop m = Outcome.returned m ∧
      (sys_tick tick_noop m).memory.SYSTEM_STATE = m.SYSTEM_STATE ∧
      (sys_tick tick_noop m).memory.ENVIRONMENT = m.ENVIRONMENT ∧
      (sys_tick tick_noop m).memory.PANIC_BUFFER = m.PANIC_BUFFER ∧
      sys_tick tick_noop Memory.initial = Outcome.returned Memory.initial :=
  ⟨rfl, rfl, rfl, rfl, rfl, rfl⟩

/-! ## Facts about writes -/

theorem write_u64_wellFormed (m m' : Memory) (key : SystemState) (value : Nat)
    (hm : m.WellFormed) (h : write_u64 m key value = some m') : m'.WellFormed := by
  unfold write_u64 at h
  split at h
  · cases h
    refine ⟨⟨?_, ?_⟩, hm.2.1, hm.2.2⟩
    · simp only [List.length_set]
      exact hm.1.1
    · intro w hw
      rcases List.mem_or_eq_of_mem_set hw with hold | hnew
      · exact hm.1.2 w hold
      · rw [hnew]
        exact Nat.mod_lt _ (by decide)
  · cases h

theorem Memory.sample_wellFormed : Memory.sample.WellFormed := by
  have hlt : SystemState.Heading.toNat < Memory.initial.SYSTEM_STATE.length := by
    rw [Memory.initial_wellFormed.1.1]
    decide
  have hw := write_u64_of_lt Memory.initial SystemState.Heading 0x7FF0000000000DEF hlt
  exact write_u64_wellFormed Memory.initial _ SystemState.Heading _ Memory.initial_wellFormed hw

theorem write_u64_frame (m m' : Memory) (key : SystemState) (value : Nat)
    (h : write_u64 m key value = some m') :
    m'.ENVIRONMENT = m.ENVIRONMENT ∧ m'.PANIC_BUFFER = m.PANIC_BUFFER ∧
      ∀ other : SystemState, other ≠ key → read_u64 m' other = read_u64 m other := by
  unfold write_u64 at h
  split at h
  · cases h
    refine ⟨rfl, rfl, ?_⟩
    intro other hne
    have hidx : key.toNat ≠ other.toNat := fun heq =>
      hne (SystemState.toNat_injective other key heq.symm)
    simp only [read_u64]
    exact List.getElem?_set_ne hidx
  · cases h

theorem write_u64_overwrite (m m₁ : Memory) (key : SystemState) (a b : Nat)
    (h : write_u64 m key a = some m₁) : write_u64 m₁ key b = write_u64 m key b := by
  unfold write_u64 at h
  split at h
  · rename_i hlt
    cases h
    simp [write_u64, hlt, List.set_set]
  · cases h

theorem list_set_of_getElem? (l : List Nat) (i w : Nat) (h : l[i]? = some w) :
    l.set i w = l := by
  induction l generalizing i with
  | nil => simp
  | cons x xs ih =>
    cases i with
    | zero =>
      simp at h
      simp [h]
    | succ j =>
      simp at h
      simp [ih j h]

/-! ## The layout of the radio block -/

/-- C11: the eight radio units have the same, regularly strided layout: the
register in position `k` (`Channel`, `Send`, `Receive`, `Data0` .. `Data3`) of
unit `N` has the offset `40 + 7 * N + k`; the radio block is the run of
declared registers at offsets `40 .. 95`, and no offset occurs in two units. -/
theorem radio_layout_strided :
    SystemState.radios.map (List.map SystemState.toNat) =
        (List.range 8).map (fun N => (List.range 7).map (fun k => 40 + 7 * N + k)) ∧
      SystemState.radios.length = 8 ∧
      SystemState.radios.map List.length = List.replicate 8 7 ∧
      SystemState.radios.flatten = (SystemState.registers.drop 40).take 56 ∧
      SystemState.radios.flatten.map SystemState.toNat = List.range' 40 56 ∧
      (SystemState.radios.flatten.map SystemState.toNat).Nodup ∧
      SystemState.Radio0Channel.toNat = 40 ∧ SystemState.Radio7Data3.toNat = 95 := by
  decide

/-! ## Algebra of the writes -/

/-- C12: the last write wins. For every table state, named register `r` and
values `a`, `b` (doubles `f`, `g`), writing twice to `r` gives exactly the
state of the second write alone: for `write_u64` after `write_u64`, for
`write_f64` after `write_f64`, and for `write_u64` after `write_f64`. -/
theorem last_write_wins (m : Memory) (r : SystemState) (a b : Nat) (f g : Double)
    (hm : m.WellFormed) (hr : r.isRegister = true) :
    (∃ m₁ m₂, write_u64 m r a = some m₁ ∧ write_u64 m₁ r b = some m₂ ∧
        write_u64 m r b = some m₂) ∧
      (∃ m₁ m₂, write_f64 m r f = some m₁ ∧ write_f64 m₁ r g = some m₂ ∧
        write_f64 m r g = some m₂) ∧
      (∃ m₁ m₂, write_f64 m r f = some m₁ ∧ write_u64 m₁ r b = some m₂ ∧
        write_u64 m r b = some m₂) := by
  have hlt : r.toNat < m.SYSTEM_STATE.length := by
    rw [hm.1.1]
    exact SystemState.toNat_lt_of_isRegister r hr
  have twice : ∀ x y : Nat, ∃ m₁ m₂, write_u64 m r x = some m₁ ∧
      write_u64 m₁ r y = some m₂ ∧ write_u64 m r y = some m₂ := by
    intro x y
    obtain ⟨m₁, h₁⟩ : ∃ m₁, write_u64 m r x = some m₁ := ⟨_, write_u64_of_lt m r x hlt⟩
    obtain ⟨m₂, h₂⟩ : ∃ m₂, write_u64 m r y = some m₂ := ⟨_, write_u64_of_lt m r y hlt⟩
    exact ⟨m₁, m₂, h₁, (write_u64_overwrite m m₁ r x y h₁).trans h₂, h₂⟩
  refine ⟨twice a b, ?_, ?_⟩
  · obtain ⟨m₁, m₂, h₁, h₁₂, h₂⟩ := twice (f.bits % 2 ^ 64) (g.bits % 2 ^ 64)
    refine ⟨m₁, m₂, ?_, ?_, ?_⟩
    · rw [write_f64_eq_write_u64]
      exact h₁
    · rw [write_f64_eq_write_u64]
      exact h₁₂
    · rw [write_f64_eq_write_u64]
      exact h₂
  · obtain ⟨m₁, m₂, h₁, h₁₂, h₂⟩ := twice (f.bits % 2 ^ 64) b
    refine ⟨m₁, m₂, ?_, h₁₂, h₂⟩
    rw [write_f64_eq_write_u64]
    exact h₁

theorem last_write_wins_witness :
    Memory.sample.WellFormed ∧ SystemState.Heading.isRegister = true ∧
      ((∃ m₁ m₂, write_u64 Memory.sample SystemState.Heading 7 = some m₁ ∧
          write_u64 m₁ SystemState.Heading 9 = some m₂ ∧
          write_u64 Memory.sample SystemState.Heading 9 = some m₂) ∧
        (∃ m₁ m₂, write_f64 Memory.sample SystemState.Heading Double.one = some m₁ ∧
          write_f64 m₁ SystemState.Heading ⟨0x8000000000000000⟩ = some m₂ ∧
          write_f64 Memory.sample SystemState.Heading ⟨0x8000000000000000⟩ = some m₂) ∧
        (∃ m₁ m₂, write_f64 Memory.sample SystemState.Heading Double.one = some m₁ ∧
          write_u64 m₁ SystemState.Heading 9 = some m₂ ∧
          write_u64 Memory.sample SystemState.Heading 9 = some m₂)) :=
  ⟨Memory.sample_wellFormed, by decide,
    last_write_wins Memory.sample SystemState.Heading 7 9 Double.one ⟨0x8000000000000000⟩
      Memory.sample_wellFormed (by decide)⟩

/-- C13: a write changes only the addressed register. For every table state,
named registers `r` and `q ≠ r`, value `v` and double `f`: after
`write_u64(r, v)`, and after `write_f64(r, f)`, `read_u64(q)` is what it was and
`ENVIRONMENT` and `PANIC_BUFFER` are unchanged. In the radio scenario, after
`Radio0Channel=5, Radio0Send=1, Radio0Data0..3=(1,2,3,4), Radio3Channel=5` the
seven values read back as written and `Radio3Receive`, `Radio3Data0..3` are
what they were. -/
theorem writes_change_only_addressed_register (m : Memory) (r q : SystemState) (v : Nat)
    (f : Double) (hm : m.WellFormed) (hr : r.isRegister = true)
    (hq : q.isRegister = true) (hne : q ≠ r) :
    (∃ m', write_u64 m r v = some m' ∧ read_u64 m' q = read_u64 m q ∧
        m'.ENVIRONMENT = m.ENVIRONMENT ∧ m'.PANIC_BUFFER = m.PANIC_BUFFER) ∧
      (∃ m', write_f64 m r f = some m' ∧ read_u64 m' q = read_u64 m q ∧
        m'.ENVIRONMENT = m.ENVIRONMENT ∧ m'.PANIC_BUFFER = m.PANIC_BUFFER) ∧
      (∃ m', write_u64_all m
            [(SystemState.Radio0Channel, 5), (SystemState.Radio0Send, 1),
              (SystemState.Radio0Data0, 1), (SystemState.Radio0Data1, 2),
              (SystemState.Radio0Data2, 3), (SystemState.Radio0Data3, 4),
              (SystemState.Radio3Channel, 5)] = some m' ∧
        read_u64 m' SystemState.Radio0Channel = some 5 ∧
        read_u64 m' SystemState.Radio0Send = some 1 ∧
        read_u64 m' SystemState.Radio0Data0 = some 1 ∧
        read_u64 m' SystemState.Radio0Data1 = some 2 ∧
        read_u64 m' SystemState.Radio0Data2 = some 3 ∧
        read_u64 m' SystemState.Radio0Data3 = some 4 ∧
        read_u64 m' SystemState.Radio3Channel = some 5 ∧
        read_u64 m' SystemState.Radio3Receive = read_u64 m SystemState.Radio3Receive ∧
        read_u64 m' SystemState.Radio3Data0 = read_u64 m SystemState.Radio3Data0 ∧
        read_u64 m' SystemState.Radio3Data1 = read_u64 m SystemState.Radio3Data1 ∧
        read_u64 m' SystemState.Radio3Data2 = read_u64 m SystemState.Radio3Data2 ∧
        read_u64 m' SystemState.Radio3Data3 = read_u64 m SystemState.Radio3Data3 ∧
        m'.ENVIRONMENT = m.ENVIRONMENT ∧ m'.PANIC_BUFFER = m.PANIC_BUFFER) := by
  have hlen : m.SYSTEM_STATE.length = 128 := hm.1.1
  have hlt : r.toNat < m.SYSTEM_STATE.length := by
    rw [hm.1.1]
    exact SystemState.toNat_lt_of_isRegister r hr
  have single : ∀ x : Nat, ∃ m', write_u64 m r x = some m' ∧ read_u64 m' q = read_u64 m q ∧
      m'.ENVIRONMENT = m.ENVIRONMENT ∧ m'.PANIC_BUFFER = m.PANIC_BUFFER := by
    intro x
    obtain ⟨m', hw⟩ : ∃ m', write_u64 m r x = some m' := ⟨_, write_u64_of_lt m r x hlt⟩
    obtain ⟨henv, hpanic, hreads⟩ := write_u64_frame m m' r x hw
    exact ⟨m', hw, hreads q hne, henv, hpanic⟩
  refine ⟨single v, ?_, ?_⟩
  · rw [write_f64_eq_write_u64]
    exact single (f.bits % 2 ^ 64)
  · have c0 : SystemState.Radio0Channel.toNat = 40 := by decide
    have s0 : SystemState.Radio0Send.toNat = 41 := by decide
    have d00 : SystemState.Radio0Data0.toNat = 43 := by decide
    have d01 : SystemState.Radio0Data1.toNat = 44 := by decide
    have d02 : SystemState.Radio0Data2.toNat = 45 := by decide
    have d03 : SystemState.Radio0Data3.toNat = 46 := by decide
    have c3 : SystemState.Radio3Channel.toNat = 61 := by decide
    have r3 : SystemState.Radio3Receive.toNat = 63 := by decide
    have d30 : SystemState.Radio3Data0.toNat = 64 := by decide
    have d31 : SystemState.Radio3Data1.toNat = 65 := by decide
    have d32 : SystemState.Radio3Data2.toNat = 66 := by decide
    have d33 : SystemState.Radio3Data3.toNat = 67 := by decide
    simp [write_u64_all, write_u64, read_u64, c0, s0, d00, d01, d02, d03, c3, r3, d30, d31,
      d32, d33, hlen, List.getElem?_set]

theorem writes_change_only_addressed_register_witness :
    Memory.sample.WellFormed ∧ SystemState.Radio0Channel.isRegister = true ∧
      SystemState.Heading.isRegister = true ∧
      SystemState.Heading ≠ SystemState.Radio0Channel ∧
      ((∃ m', write_u64 Memory.sample SystemState.Radio0Channel 5 = some m' ∧
          read_u64 m' SystemState.Heading = read_u64 Memory.sample SystemState.Heading ∧
          m'.ENVIRONMENT = Memory.sample.ENVIRONMENT ∧ m'.PANIC_BUFFER = Memory.sample.PANIC_BUFFER) ∧
        (∃ m', write_f64 Memory.sample SystemState.Radio0Channel Double.one = some m' ∧
          read_u64 m' SystemState.Heading = read_u64 Memory.sample SystemState.Heading ∧
          m'.ENVIRONMENT = Memory.sample.ENVIRONMENT ∧ m'.PANIC_BUFFER = Memory.sample.PANIC_BUFFER) ∧
        (∃ m', write_u64_all Memory.sample
              [(SystemState.Radio0Channel, 5), (SystemState.Radio0Send, 1),
                (SystemState.Radio0Data0, 1), (SystemState.Radio0Data1, 2),
                (SystemState.Radio0Data2, 3), (SystemState.Radio0Data3, 4),
                (SystemState.Radio3Channel, 5)] = some m' ∧
          read_u64 m' SystemState.Radio0Channel = some 5 ∧
          read_u64 m' SystemState.Radio0Send = some 1 ∧
          read_u64 m' SystemState.Radio0Data0 = some 1 ∧
          read_u64 m' SystemState.Radio0Data1 = some 2 ∧
          read_u64 m' SystemState.Radio0Data2 = some 3 ∧
          read_u64 m' SystemState.Radio0Data3 = some 4 ∧
          read_u64 m' SystemState.Radio3Channel = some 5 ∧
          read_u64 m' SystemState.Radio3Receive = read_u64 Memory.sample SystemState.Radio3Receive ∧
          read_u64 m' SystemState.Radio3Data0 = read_u64 Memory.sample SystemState.Radio3Data0 ∧
          read_u64 m' SystemState.Radio3Data1 = read_u64 Memory.sample SystemState.Radio3Data1 ∧
          read_u64 m' SystemState.Radio3Data2 = read_u64 Memory.sample SystemState.Radio3Data2 ∧
          read_u64 m' SystemState.Radio3Data3 = read_u64 Memory.sample SystemState.Radio3Data3 ∧
          m'.ENVIRONMENT = Memory.sample.ENVIRONMENT ∧ m'.PANIC_BUFFER = Memory.sample.PANIC_BUFFER)) :=
  ⟨Memory.sample_wellFormed, by decide, by decide, by decide,
    writes_change_only_addressed_register Memory.sample SystemState.Radio0Channel
      SystemState.Heading 5 Double.one Memory.sample_wellFormed (by decide) (by decide)
      (by decide)⟩

/-- C14: writes to different registers commute. For every table state, distinct
named registers `r` and `q` and values `a`, `b`, the state after
`write_u64(r, a); write_u64(q, b)` is the state after
`write_u64(q, b); write_u64(r, a)`. -/
theorem writes_to_distinct_registers_commute (m : Memory) (r q : SystemState) (a b : Nat)
    (hm : m.WellFormed) (hr : r.isRegister = true) (hq : q.isRegister = true)
    (hne : r ≠ q) :
    ∃ m₁ m₂ m', write_u64 m r a = some m₁ ∧ write_u64 m₁ q b = some m' ∧
      write_u64 m q b = some m₂ ∧ write_u64 m₂ r a = some m' := by
  have hlr : r.toNat < m.SYSTEM_STATE.length := by
    rw [hm.1.1]
    exact SystemState.toNat_lt_of_isRegister r hr
  have hlq : q.toNat < m.SYSTEM_STATE.length := by
    rw [hm.1.1]
    exact SystemState.toNat_lt_of_isRegister q hq
  have hidx : r.toNat ≠ q.toNat := fun heq => hne (SystemState.toNat_injective r q heq)
  have h₁ := write_u64_of_lt m r a hlr
  have h₂ := write_u64_of_lt m q b hlq
  have h₁₂ := write_u64_of_lt
    { m with SYSTEM_STATE := m.SYSTEM_STATE.set r.toNat (a % 2 ^ 64) } q b
    (by simp only [List.length_set]; exact hlq)
  have h₂₁ := write_u64_of_lt
    { m with SYSTEM_STATE := m.SYSTEM_STATE.set q.toNat (b % 2 ^ 64) } r a
    (by simp only [List.length_set]; exact hlr)
  refine ⟨_, _, _, h₁, h₁₂, h₂, ?_⟩
  rw [h₂₁]
  simp only [List.set_comm _ _ _ hidx]

theorem writes_to_distinct_registers_commute_witness :
    Memory.sample.WellFormed ∧ SystemState.Aim0.isRegister = true ∧
      SystemState.Fire0.isRegister = true ∧ SystemState.Aim0 ≠ SystemState.Fire0 ∧
      ∃ m₁ m₂ m', write_u64 Memory.sample SystemState.Aim0 3 = some m₁ ∧
        write_u64 m₁ SystemState.Fire0 1 = some m' ∧
        write_u64 Memory.sample SystemState.Fire0 1 = some m₂ ∧
        write_u64 m₂ SystemState.Aim0 3 = some m' :=
  ⟨Memory.sample_wellFormed, by decide, by decide, by decide,
    writes_to_distinct_registers_commute Memory.sample SystemState.Aim0 SystemState.Fire0 3 1
      Memory.sample_wellFormed (by decide) (by decide) (by decide)⟩

/-- C15: writing back what was read is the identity on the state. For every
table state and named register `r`, `write_u64(r, read_u64(r))` leaves the whole
memory unchanged, and so does `write_f64(r, read_f64(r))`, whatever 64-bit word
is stored (NaN and denormal patterns included). -/
theorem write_back_is_identity (m : Memory) (r : SystemState)
    (hm : m.WellFormed) (hr : r.isRegister = true) :
    (∃ w, read_u64 m r = some w ∧ write_u64 m r w = some m) ∧
      (∃ x, read_f64 m r = some x ∧ write_f64 m r x = some m) := by
  have hlt : r.toNat < m.SYSTEM_STATE.length := by
    rw [hm.1.1]
    exact SystemState.toNat_lt_of_isRegister r hr
  obtain ⟨w, hread, hmem⟩ := read_u64_of_lt m r hlt
  have hw : w % 2 ^ 64 = w := Nat.mod_eq_of_lt (hm.1.2 w hmem)
  have hback : write_u64 m r w = some m := by
    rw [write_u64_of_lt m r w hlt, hw]
    have hset : m.SYSTEM_STATE.set r.toNat w = m.SYSTEM_STATE :=
      list_set_of_getElem? m.SYSTEM_STATE r.toNat w hread
    rw [hset]
  refine ⟨⟨w, hread, hback⟩, ⟨⟨w⟩, ?_, ?_⟩⟩
  · rw [read_f64_of_read_u64 m r w hread, hw]
  · rw [write_f64_eq_write_u64]
    show write_u64 m r (w % 2 ^ 64) = some m
    rw [hw]
    exact hback

theorem write_back_is_identity_witness :
    Memory.sample.WellFormed ∧ SystemState.Heading.isRegister = true ∧
      ((∃ w, read_u64 Memory.sample SystemState.Heading = some w ∧
          write_u64 Memory.sample SystemState.Heading w = some Memory.sample) ∧
        (∃ x, read_f64 Memory.sample SystemState.Heading = some x ∧
          write_f64 Memory.sample SystemState.Heading x = some Memory.sample)) :=
  ⟨Memory.sample_wellFormed, by decide,
    write_back_is_identity Memory.sample SystemState.Heading
      Memory.sample_wellFormed (by decide)⟩

end Oort
